import Mathlib

/-!
Shallow embedding of `src/withRecovery.ts` (the recovery controller of
UseExternalWindow) and proofs about the spec's claims.

Modelling conventions:
* JS `try { fn() } catch` reads (`safeRead`) become `Option`-valued inputs:
  `some v` is a successful read of `v`, `none` is a throwing read.
* A window handle is identified by a `Nat`; the environment supplies, per
  tick / per factory call, the values that property reads observe
  (`WindowView`, `FactoryOutcome`).
* `Date.now()` values are supplied by the environment as `Nat` timestamps
  (`now` for the read at the top of `tick`, `nowOpen` for the read inside
  `openNew`, which the code performs separately).
* Mutations of the closure variables `win`, `timer`, `messageHandler`,
  `closedByManager` and `state` become explicit state passing on
  `CtrlState`.  `win.close()` attempts (always best-effort in the code)
  are logged in `closeAttempts` so that "the handle was (not) closed"
  is observable.  Exceptions escaping a function are modelled by the
  `err` field of `StepOut`; `factoryArgs` logs the deep-copied state
  snapshots passed to the caller-supplied factory `openPopup`.
* `emitter.dispatchEvent` becomes appending an `Event` to the emitted list.
-/

/-- `RecoveryOptions` from `withRecovery.ts` (pollMs, lostAfterMs,
targetOrigin, debug).  The code destructures only `pollMs` and
`lostAfterMs`; `targetOrigin` and `debug` are declared but never read. -/
structure RecoveryOptions where
  pollMs : Nat := 250
  lostAfterMs : Nat := 0
  targetOrigin : Option String := none
  debug : Bool := false
deriving Repr, DecidableEq

/-- The `bounds` record of `RecoveryState`: each coordinate is
`number | undefined`. -/
structure Bounds where
  x : Option Int
  y : Option Int
  w : Option Int
  h : Option Int
deriving Repr, DecidableEq

/-- `RecoveryState` from `withRecovery.ts`. -/
structure RecoveryState where
  name : Option String
  bounds : Bounds
  lastSeenHref : Option String
  lastGoodAt : Nat
  lastLossAt : Nat
  exitSignaled : Bool
deriving Repr, DecidableEq

/-- The initial `state` literal of `withRecovery`. -/
def initState : RecoveryState :=
  { name := none
    bounds := { x := none, y := none, w := none, h := none }
    lastSeenHref := none
    lastGoodAt := 0
    lastLossAt := 0
    exitSignaled := false }

/-- What the guarded property reads on the current window observe during
one tick: `none` means the read threw. -/
structure WindowView where
  closed : Option Bool
  screenX : Option Int
  screenY : Option Int
  outerWidth : Option Int
  outerHeight : Option Int
  name : Option String
  href : Option String
deriving Repr, DecidableEq

/-- Outcome of one invocation of the caller-supplied factory
`openPopup(state)`: it throws, returns a falsy/non-object value, or
returns a window handle (with the result of the immediate guarded
`win.name` read that `openNew` performs on it). -/
inductive FactoryOutcome where
  | throws
  | invalid
  | ok (w : Nat) (nameRead : Option String)
deriving Repr, DecidableEq

/-- Exceptions that can escape `openNew` (and hence `open()` / `tick`). -/
inductive ThrownErr where
  | factoryThrew
  | invalidHandle
deriving Repr, DecidableEq

/-- The events dispatched on the controller's `EventTarget`.  The `open`
event is named `opened` because `open` is a Lean keyword. -/
inductive Event where
  | opened (reason : String) (win : Nat) (state : RecoveryState)
  | closed (byManager : Bool) (exitSignaled : Bool) (state : RecoveryState)
  | lost (lostForMs : Int) (state : RecoveryState)
  | recovered (state : RecoveryState)
  | exit (reason : String) (state : RecoveryState)
deriving Repr, DecidableEq

/-- The mutable closure state of one `withRecovery` controller instance:
`state`, `win`, `timer` (interval registered), `messageHandler`
(listener attached), `closedByManager`, plus the observation log
`closeAttempts` of every `win.close()` call issued by `closeCurrent`. -/
structure CtrlState where
  state : RecoveryState
  win : Option Nat
  timer : Bool
  msgAttached : Bool
  closedByManager : Bool
  closeAttempts : List Nat
deriving Repr, DecidableEq

/-- Controller state right after `withRecovery` returns, before `open()`. -/
def initCtrl : CtrlState :=
  { state := initState, win := none, timer := false, msgAttached := false
    closedByManager := false, closeAttempts := [] }

/-- Result of one controller operation: the new closure state, the events
dispatched (in order), the state snapshots passed to the factory, and
the exception that escaped, if any. -/
structure StepOut where
  ctrl : CtrlState
  events : List Event
  factoryArgs : List RecoveryState
  err : Option ThrownErr
deriving Repr, DecidableEq

/-- `snapshotUiState(w)`: guarded reads of screenX/screenY/outerWidth/
outerHeight/name, each folded into `state` only when it succeeded, then
the guarded `location.href` probe; returns the updated state together
with the `href.ok` accessibility signal. -/
def snapshotUiState (s : RecoveryState) (v : WindowView) : RecoveryState × Bool :=
  let s1 := match v.name with
    | some nm => { s with name := some nm }
    | none => s
  let s2 := match v.screenX with
    | some a => { s1 with bounds := { s1.bounds with x := some a } }
    | none => s1
  let s3 := match v.screenY with
    | some a => { s2 with bounds := { s2.bounds with y := some a } }
    | none => s2
  let s4 := match v.outerWidth with
    | some a => { s3 with bounds := { s3.bounds with w := some a } }
    | none => s3
  let s5 := match v.outerHeight with
    | some a => { s4 with bounds := { s4.bounds with h := some a } }
    | none => s4
  let s6 := match v.href with
    | some u => { s5 with lastSeenHref := some u }
    | none => s5
  (s6, v.href.isSome)

/-- `isClosed(w)`: guarded read of `w.closed`; a throwing read counts as
not closed (`c.ok ? c.value : false`). -/
def isClosed (v : WindowView) : Bool :=
  v.closed.getD false

/-- `stop()`: clear the interval and detach the message listener. -/
def stop (c : CtrlState) : CtrlState :=
  { c with timer := false, msgAttached := false }

/-- `start()`: attach the message listener (idempotent), clear any prior
interval and register a new one. -/
def start (c : CtrlState) : CtrlState :=
  { c with msgAttached := true, timer := true }

/-- `closeCurrent()`: if a handle is held, set `closedByManager` and
best-effort call `win.close()` (logged in `closeAttempts`; a throwing
close is swallowed and indistinguishable here). -/
def closeCurrent (c : CtrlState) : CtrlState :=
  match c.win with
  | none => c
  | some w =>
      { c with closedByManager := true, closeAttempts := c.closeAttempts ++ [w] }

/-- `openNew(reason)`: reset `closedByManager` and `state.exitSignaled`,
call the factory with a deep copy of `state`, throw on a falsy/non-object
result, otherwise adopt the handle, capture its name, stamp
`lastGoodAt = Date.now()`, zero `lastLossAt`, and dispatch `open`. -/
def openNew (c : CtrlState) (reason : String) (f : FactoryOutcome)
    (now : Nat) : StepOut :=
  let c1 : CtrlState :=
    { c with closedByManager := false
             state := { c.state with exitSignaled := false } }
  let arg := c1.state
  match f with
  | .throws => ⟨c1, [], [arg], some .factoryThrew⟩
  | .invalid => ⟨c1, [], [arg], some .invalidHandle⟩
  | .ok w nameRead =>
      let c2 := { c1 with win := some w }
      let st1 := match nameRead with
        | some nm => { c2.state with name := some nm }
        | none => c2.state
      let st2 := { st1 with lastGoodAt := now, lastLossAt := 0 }
      ⟨{ c2 with state := st2 }, [Event.opened reason w st2], [arg], none⟩

/-- What one tick of the watchdog observes from the environment. -/
structure TickEnv where
  now : Nat
  view : WindowView
  factory : FactoryOutcome
  nowOpen : Nat
deriving Repr, DecidableEq

/-- `tick()`: no-op without a handle; on a closed handle stop and dispatch
`closed`; otherwise snapshot, and on sustained inaccessibility dispatch
`lost`, close the current handle, reopen via `openNew("recovery")`
(whose `open` dispatch happens inside it) and dispatch `recovered`. -/
def tick (cfg : RecoveryOptions) (c : CtrlState) (env : TickEnv) : StepOut :=
  match c.win with
  | none => ⟨c, [], [], none⟩
  | some _ =>
    if isClosed env.view then
      let c1 := stop c
      ⟨c1, [Event.closed c1.closedByManager c1.state.exitSignaled c1.state],
        [], none⟩
    else
      let r := snapshotUiState c.state env.view
      if r.2 then
        ⟨{ c with state := { r.1 with lastGoodAt := env.now, lastLossAt := 0 } },
          [], [], none⟩
      else
        let st := if r.1.lastLossAt = 0 then { r.1 with lastLossAt := env.now }
          else r.1
        let c2 := { c with state := st }
        let lostFor : Int := (env.now : Int) - (st.lastLossAt : Int)
        if 0 < cfg.lostAfterMs ∧ lostFor < (cfg.lostAfterMs : Int) then
          ⟨c2, [], [], none⟩
        else
          let ev1 := Event.lost lostFor st
          let c3 := closeCurrent c2
          let o := openNew c3 "recovery" env.factory env.nowOpen
          match o.err with
          | some e => ⟨o.ctrl, ev1 :: o.events, o.factoryArgs, some e⟩
          | none =>
              ⟨o.ctrl, ev1 :: (o.events ++ [Event.recovered o.ctrl.state]),
                o.factoryArgs, none⟩

/-- `controller.open(reason)`: `openNew` then `start` (skipped when
`openNew` throws; the exception propagates to the caller). -/
def openCtrl (c : CtrlState) (reason : String) (f : FactoryOutcome)
    (now : Nat) : StepOut :=
  let o := openNew c reason f now
  match o.err with
  | some _ => o
  | none => { o with ctrl := start o.ctrl }

/-- `controller.close()`: `stop()` then `closeCurrent()`; dispatches
nothing. -/
def closeCtrl (c : CtrlState) : CtrlState :=
  closeCurrent (stop c)

/-- A partial update of the `bounds` record carried by a
`POPUP_UI_STATE` message; an absent outer layer means the property is
not present in `msg.bounds`, the inner `Option` is the JS value
(`undefined` or a number). -/
structure BoundsPatch where
  x : Option (Option Int) := none
  y : Option (Option Int) := none
  w : Option (Option Int) := none
  h : Option (Option Int) := none
deriving Repr, DecidableEq

/-- `{ ...state.bounds, ...msg.bounds }`. -/
def mergeBounds (b : Bounds) (p : BoundsPatch) : Bounds :=
  { x := p.x.getD b.x, y := p.y.getD b.y
    w := p.w.getD b.w, h := p.h.getD b.h }

/-- The fields of a message object that `messageHandler` inspects:
`type`, `reason` (none = nullish, so `?? "unknown"` applies),
`bounds` (none = falsy), and `name` (some = it is a string). -/
structure MsgObj where
  type : Option String
  reason : Option String
  bounds : Option BoundsPatch
  name : Option String
deriving Repr, DecidableEq

/-- `e.data` of an incoming message: either falsy / not an object, or an
object with the inspected fields. -/
inductive MsgData where
  | nonObject
  | object (m : MsgObj)
deriving Repr, DecidableEq

/-- The `messageHandler` closure.  Note the code never reads `e.origin`
(the origin check is absent): `_origin` is accepted and ignored,
faithfully to the source. -/
def handleMessage (c : CtrlState) (_origin : String) (d : MsgData) :
    CtrlState × List Event :=
  match d with
  | .nonObject => (c, [])
  | .object m =>
    let p1 : CtrlState × List Event :=
      if m.type = some "POPUP_EXIT" then
        let st := { c.state with exitSignaled := true }
        ({ c with state := st }, [Event.exit (m.reason.getD "unknown") st])
      else (c, [])
    if m.type = some "POPUP_UI_STATE" then
      match m.bounds with
      | some bp =>
        let c2 := p1.1
        let st1 := { c2.state with bounds := mergeBounds c2.state.bounds bp }
        let st2 := match m.name with
          | some nm => { st1 with name := some nm }
          | none => st1
        ({ c2 with state := st2 }, p1.2)
      | none => p1
    else p1

/-- External stimuli of one controller: a timer firing (runs `tick` only
while the interval is registered), an incoming `message` event (runs
`messageHandler` only while the listener is attached), and the caller
invoking `open()` or `close()`. -/
inductive Act where
  | tickAt (env : TickEnv)
  | message (origin : String) (d : MsgData)
  | openCall (reason : String) (f : FactoryOutcome) (now : Nat)
  | closeCall
deriving Repr, DecidableEq

/-- Whether an action is a caller `open()` invocation. -/
def Act.isOpenCall : Act → Bool
  | .openCall _ _ _ => true
  | _ => false

/-- One serialized event-loop callback. -/
def step (cfg : RecoveryOptions) (c : CtrlState) (a : Act) : StepOut :=
  match a with
  | .tickAt env => if c.timer then tick cfg c env else ⟨c, [], [], none⟩
  | .message origin d =>
      if c.msgAttached then
        let r := handleMessage c origin d
        ⟨r.1, r.2, [], none⟩
      else ⟨c, [], [], none⟩
  | .openCall reason f now => openCtrl c reason f now
  | .closeCall => ⟨closeCtrl c, [], [], none⟩

/-- Run a list of serialized callbacks, accumulating dispatched events. -/
def runAcc (cfg : RecoveryOptions) (c : CtrlState) :
    List Act → CtrlState × List Event
  | [] => (c, [])
  | a :: rest =>
      let o := step cfg c a
      let r := runAcc cfg o.ctrl rest
      (r.1, o.events ++ r.2)

/-! Shared concrete fixtures used by witnesses and counterexamples. -/

/-- A window view where every guarded read succeeds. -/
def viewAccessible : WindowView :=
  { closed := some false, screenX := some 30, screenY := some 40
    outerWidth := some 800, outerHeight := some 600
    name := some "popup", href := some "https:popup" }

/-- A view where only the security-restricted `location.href` read throws. -/
def viewInaccessible : WindowView :=
  { viewAccessible with href := none }

/-- A view whose `closed` read yields `true`. -/
def viewClosed : WindowView :=
  { viewAccessible with closed := some true }

/-- A controller with active handle `0`, interval and listener running. -/
def sampleCtrl : CtrlState :=
  { state := { initState with lastGoodAt := 10 }, win := some 0
    timer := true, msgAttached := true, closedByManager := false
    closeAttempts := [] }

/-- The `{type:"POPUP_EXIT", reason:"nav"}` wire message. -/
def exitNavMsg : MsgData :=
  .object { type := some "POPUP_EXIT", reason := some "nav"
            bounds := none, name := none }

/-- C7: every property read taken by `snapshotUiState` is independently
guarded: a successful read overwrites the stored value, a throwing read
leaves it untouched and does not abort the other reads (each field obeys
its own read, regardless of the others); no error is surfaced (the
function is total); the `accessible` result is `true` exactly when the
`location.href` read succeeded; timestamps and `exitSignaled` are not
touched. -/
theorem snapshot_guarded_reads (s : RecoveryState) (v : WindowView) :
    (snapshotUiState s v).1.name = v.name.or s.name ∧
    (snapshotUiState s v).1.bounds.x = v.screenX.or s.bounds.x ∧
    (snapshotUiState s v).1.bounds.y = v.screenY.or s.bounds.y ∧
    (snapshotUiState s v).1.bounds.w = v.outerWidth.or s.bounds.w ∧
    (snapshotUiState s v).1.bounds.h = v.outerHeight.or s.bounds.h ∧
    (snapshotUiState s v).1.lastSeenHref = v.href.or s.lastSeenHref ∧
    ((snapshotUiState s v).2 = true ↔ (v.href).isSome = true) ∧
    (snapshotUiState s v).1.lastGoodAt = s.lastGoodAt ∧
    (snapshotUiState s v).1.lastLossAt = s.lastLossAt ∧
    (snapshotUiState s v).1.exitSignaled = s.exitSignaled := by
  obtain ⟨cl, sx, sy, ow, oh, nm, hr⟩ := v
  cases sx <;> cases sy <;> cases ow <;> cases oh <;> cases nm <;> cases hr <;>
    simp [snapshotUiState, Option.or]

/-- C10: when the factory returns a falsy or non-object value, `open()`
throws synchronously, but not atomically: `exitSignaled` and
`closedByManager` are already reset to `false`, the previously active
handle is still the one referenced (`win` unchanged, so `getWindow()`
still returns it), no close of it was attempted, no event was emitted,
and any interval or message listener registered by an earlier `open()`
is still in place (`timer`, `msgAttached` unchanged). -/
theorem open_invalid_not_atomic (c : CtrlState) (reason : String) (now : Nat) :
    (openCtrl c reason .invalid now).err = some ThrownErr.invalidHandle ∧
    (openCtrl c reason .invalid now).ctrl.win = c.win ∧
    (openCtrl c reason .invalid now).ctrl.timer = c.timer ∧
    (openCtrl c reason .invalid now).ctrl.msgAttached = c.msgAttached ∧
    (openCtrl c reason .invalid now).ctrl.state.exitSignaled = false ∧
    (openCtrl c reason .invalid now).ctrl.closedByManager = false ∧
    (openCtrl c reason .invalid now).events = [] ∧
    (openCtrl c reason .invalid now).ctrl.closeAttempts = c.closeAttempts := by
  simp [openCtrl, openNew]

/-- C2 counterexample: with `targetOrigin` set to `"https:app"`, a run
that additionally receives a `POPUP_EXIT` message from the foreign
origin `"https:evil"` does NOT produce the same tracked state and
events as the run without it — the origin check in `messageHandler` is
commented out in the source, so the foreign message flips
`exitSignaled` and dispatches an `exit` event. -/
theorem targetOrigin_cex :
    runAcc { targetOrigin := some "https:app" } initCtrl
        [Act.openCall "initial" (.ok 0 none) 10,
         Act.message "https:evil" exitNavMsg] ≠
      runAcc { targetOrigin := some "https:app" } initCtrl
        [Act.openCall "initial" (.ok 0 none) 10] := by
  decide

/-- C2 amended: the `targetOrigin` option is accepted but never read, and
`messageHandler` never reads the message's origin: every step is
invariant both under changing `targetOrigin` and under changing the
origin an incoming message arrives from, so no origin-based filtering
of any kind takes place (origin validation is left to the caller). -/
theorem targetOrigin_unused :
    (∀ (c : CtrlState) (o1 o2 : String) (d : MsgData),
      handleMessage c o1 d = handleMessage c o2 d) ∧
    (∀ (cfg : RecoveryOptions) (t : Option String) (c : CtrlState) (a : Act),
      step { cfg with targetOrigin := t } c a = step cfg c a) := by
  refine ⟨fun c o1 o2 d => rfl, fun cfg t c a => ?_⟩
  cases a <;> rfl

/-- C1 counterexample: calling `open()` on a controller whose handle `0`
is active never attempts to close that prior handle (`closeAttempts`
stays empty, where the claimed best-effort close would have logged an
attempt on handle `0`) and leaves `closedByManager = false` (the
claimed marking never happens); and when the factory throws, the prior
polling provably was not stopped before the factory was invoked: the
factory was called (`factoryArgs` nonempty) yet `timer` is still
running. -/
theorem reopen_cex :
    (openCtrl sampleCtrl "again" (.ok 1 none) 100).ctrl.closeAttempts = [] ∧
    (openCtrl sampleCtrl "again" (.ok 1 none) 100).ctrl.closedByManager = false ∧
    (openCtrl sampleCtrl "again" .throws 100).ctrl.timer = true ∧
    (openCtrl sampleCtrl "again" .throws 100).factoryArgs ≠ [] := by
  decide

/-- C1 amended: calling `open()` again with an active handle does not
stop, mark, or close the prior handle at all: it resets
`closedByManager` and `exitSignaled` to `false`, invokes the factory
with the reset state snapshot, replaces the handle, emits `open`, and
only then `start()` re-registers the interval (and keeps the listener
attached); the prior handle is simply dropped unclosed. -/
theorem reopen_drops_prior_handle (c : CtrlState) (reason : String)
    (w0 w : Nat) (nm : Option String) (now : Nat) (_h : c.win = some w0) :
    (openCtrl c reason (.ok w nm) now).ctrl.closeAttempts = c.closeAttempts ∧
    (openCtrl c reason (.ok w nm) now).ctrl.closedByManager = false ∧
    (openCtrl c reason (.ok w nm) now).ctrl.state.exitSignaled = false ∧
    (openCtrl c reason (.ok w nm) now).ctrl.win = some w ∧
    (openCtrl c reason (.ok w nm) now).ctrl.timer = true ∧
    (openCtrl c reason (.ok w nm) now).ctrl.msgAttached = true ∧
    (openCtrl c reason (.ok w nm) now).factoryArgs =
      [{ c.state with exitSignaled := false }] ∧
    (∃ st, (openCtrl c reason (.ok w nm) now).events =
      [Event.opened reason w st]) := by
  cases nm <;> simp [openCtrl, openNew, start]

/-- C1 amended, witnessed at the concrete controller `sampleCtrl` whose
handle `0` is active. -/
theorem reopen_drops_prior_handle_witness :
    (openCtrl sampleCtrl "again" (.ok 1 none) 100).ctrl.closeAttempts =
      sampleCtrl.closeAttempts ∧
    (openCtrl sampleCtrl "again" (.ok 1 none) 100).ctrl.closedByManager = false :=
  ⟨(reopen_drops_prior_handle sampleCtrl "again" 0 1 none 100 rfl).1,
   (reopen_drops_prior_handle sampleCtrl "again" 0 1 none 100 rfl).2.1⟩

/-- C8: receiving `{type:"POPUP_EXIT", reason:"nav"}` while the bridge is
attached sets `exitSignaled` to `true` and dispatches exactly one
`exit` event with reason `"nav"` and the updated state snapshot; and a
subsequent `open()` passes the factory a snapshot in which
`exitSignaled` has been reset to `false` (the reset happens before the
factory is invoked, for every factory outcome). -/
theorem popup_exit_and_reset (cfg : RecoveryOptions) (c : CtrlState)
    (origin r : String) (f : FactoryOutcome) (now : Nat)
    (h : c.msgAttached = true) :
    (step cfg c (Act.message origin exitNavMsg)).ctrl.state.exitSignaled = true ∧
    (step cfg c (Act.message origin exitNavMsg)).events =
      [Event.exit "nav" { c.state with exitSignaled := true }] ∧
    (openCtrl (step cfg c (Act.message origin exitNavMsg)).ctrl r f now).factoryArgs =
      [{ c.state with exitSignaled := false }] := by
  cases f <;> simp [step, h, handleMessage, exitNavMsg, openCtrl, openNew]

/-- C8, witnessed at the concrete controller `sampleCtrl` (listener
attached) and a successful replacement factory. -/
theorem popup_exit_and_reset_witness :
    (step {} sampleCtrl (Act.message "https:popup" exitNavMsg)).ctrl.state.exitSignaled
        = true ∧
    (openCtrl (step {} sampleCtrl (Act.message "https:popup" exitNavMsg)).ctrl
        "again" (.ok 1 none) 50).factoryArgs =
      [{ sampleCtrl.state with exitSignaled := false }] :=
  ⟨(popup_exit_and_reset {} sampleCtrl "https:popup" "again" (.ok 1 none) 50 rfl).1,
   (popup_exit_and_reset {} sampleCtrl "https:popup" "again" (.ok 1 none) 50 rfl).2.2⟩

/-- C9: when the factory throws during a recovery attempt inside a tick
(handle active, `closed` reads false, `href` read throws, no grace
period), the exception escapes the tick (`err` is set, nothing catches
it), the `lost` event has already been dispatched and is the only event
of the tick (in particular no `recovered`), and the old handle was
best-effort closed beforehand (`closeAttempts` grew by it). -/
theorem recovery_factory_throw (cfg : RecoveryOptions) (c : CtrlState)
    (env : TickEnv) (w : Nat)
    (hw : c.win = some w) (hnc : isClosed env.view = false)
    (hhref : env.view.href = none) (hgrace : cfg.lostAfterMs = 0)
    (hf : env.factory = .throws) :
    (tick cfg c env).err = some ThrownErr.factoryThrew ∧
    (∃ lf st, (tick cfg c env).events = [Event.lost lf st]) ∧
    (tick cfg c env).ctrl.closeAttempts = c.closeAttempts ++ [w] := by
  simp [tick, hw, hnc, hhref, hgrace, hf, closeCurrent, openNew, snapshotUiState]

/-- C9, witnessed at `sampleCtrl` with a throwing factory. -/
theorem recovery_factory_throw_witness :
    (tick {} sampleCtrl ⟨20, viewInaccessible, .throws, 20⟩).err =
        some ThrownErr.factoryThrew ∧
    (tick {} sampleCtrl ⟨20, viewInaccessible, .throws, 20⟩).ctrl.closeAttempts =
        sampleCtrl.closeAttempts ++ [0] :=
  ⟨(recovery_factory_throw {} sampleCtrl ⟨20, viewInaccessible, .throws, 20⟩ 0
      rfl rfl rfl rfl rfl).1,
   (recovery_factory_throw {} sampleCtrl ⟨20, viewInaccessible, .throws, 20⟩ 0
      rfl rfl rfl rfl rfl).2.2⟩

/-- `closeCurrent` never touches the interval registration. -/
lemma closeCurrent_timer (c : CtrlState) : (closeCurrent c).timer = c.timer := by
  cases h : c.win <;> simp [closeCurrent, h]

/-- `closeCurrent` never touches the message-listener registration. -/
lemma closeCurrent_msg (c : CtrlState) :
    (closeCurrent c).msgAttached = c.msgAttached := by
  cases h : c.win <;> simp [closeCurrent, h]

/-- Once the interval is cleared and the listener detached, any sequence
of callbacks containing no caller `open()` dispatches no event at all:
timer firings and incoming messages are no-ops, and `close()` is silent. -/
lemma runAcc_quiet (cfg : RecoveryOptions) (acts : List Act) :
    ∀ c : CtrlState, c.timer = false → c.msgAttached = false →
      (∀ a ∈ acts, a.isOpenCall = false) → (runAcc cfg c acts).2 = [] := by
  induction acts with
  | nil => intro c _ _ _; rfl
  | cons a rest ih =>
    intro c ht hm hno
    have hrest : ∀ a ∈ rest, a.isOpenCall = false :=
      fun a ha => hno a (List.mem_cons_of_mem _ ha)
    cases a with
    | tickAt env =>
        simp only [runAcc, step, ht, if_false, Bool.false_eq_true]
        simpa using ih c ht hm hrest
    | message o d =>
        simp only [runAcc, step, hm, if_false, Bool.false_eq_true]
        simpa using ih c ht hm hrest
    | openCall r f n =>
        exact absurd (hno _ (List.mem_cons_self _ _)) (by simp [Act.isOpenCall])
    | closeCall =>
        have h1 : (closeCtrl c).timer = false := by
          simp [closeCtrl, closeCurrent_timer, stop]
        have h2 : (closeCtrl c).msgAttached = false := by
          simp [closeCtrl, closeCurrent_msg, stop]
        simp only [runAcc, step]
        simpa using ih (closeCtrl c) h1 h2 hrest

/-- C4: on the first tick at which the handle's `closed` read yields
`true` (a throwing `closed` read is treated as false, last conjunct),
the tick clears the interval and detaches the message listener, emits
exactly one `closed` event carrying `byManager`, `exitSignaled` and the
state snapshot, does not reopen (same handle, no exception, no factory
call), and afterwards no event of any kind is dispatched by any
callback sequence free of caller `open()` invocations. -/
theorem closed_tick_final (cfg : RecoveryOptions) (c : CtrlState)
    (env : TickEnv) (w : Nat) (acts : List Act)
    (hw : c.win = some w) (hc : isClosed env.view = true)
    (hno : ∀ a ∈ acts, a.isOpenCall = false) :
    (tick cfg c env).events =
      [Event.closed c.closedByManager c.state.exitSignaled c.state] ∧
    (tick cfg c env).ctrl.timer = false ∧
    (tick cfg c env).ctrl.msgAttached = false ∧
    (tick cfg c env).ctrl.win = some w ∧
    (tick cfg c env).err = none ∧
    (tick cfg c env).factoryArgs = [] ∧
    (runAcc cfg (tick cfg c env).ctrl acts).2 = [] ∧
    (∀ v : WindowView, v.closed = none → isClosed v = false) := by
  have h1 : tick cfg c env =
      ⟨stop c, [Event.closed c.closedByManager c.state.exitSignaled c.state],
        [], none⟩ := by
    simp [tick, hw, hc, stop]
  refine ⟨by simp [h1], by simp [h1, stop], by simp [h1, stop],
    by simp [h1, stop, hw], by simp [h1], by simp [h1], ?_, ?_⟩
  · rw [h1]
    exact runAcc_quiet cfg acts (stop c) rfl rfl hno
  · intro v hv
    simp [isClosed, hv]

/-- C4, witnessed at `sampleCtrl` whose handle reads closed, followed by
a tick, a message and a `close()` call, none of which emits anything. -/
theorem closed_tick_final_witness :
    (tick {} sampleCtrl ⟨20, viewClosed, .throws, 20⟩).events =
      [Event.closed sampleCtrl.closedByManager sampleCtrl.state.exitSignaled
        sampleCtrl.state] ∧
    (runAcc {} (tick {} sampleCtrl ⟨20, viewClosed, .throws, 20⟩).ctrl
      [Act.tickAt ⟨21, viewAccessible, .throws, 21⟩,
       Act.message "https:popup" exitNavMsg, Act.closeCall]).2 = [] :=
  ⟨(closed_tick_final {} sampleCtrl ⟨20, viewClosed, .throws, 20⟩ 0
      [Act.tickAt ⟨21, viewAccessible, .throws, 21⟩,
       Act.message "https:popup" exitNavMsg, Act.closeCall]
      rfl rfl (by decide)).1,
   (closed_tick_final {} sampleCtrl ⟨20, viewClosed, .throws, 20⟩ 0
      [Act.tickAt ⟨21, viewAccessible, .throws, 21⟩,
       Act.message "https:popup" exitNavMsg, Act.closeCall]
      rfl rfl (by decide)).2.2.2.2.2.2.1⟩

/-- C6: `close()` dispatches no event (caller-initiated close is silent),
clears the interval and detaches the message listener; a timer firing
after it is a strict no-op (no tick runs), and no callback sequence
free of caller `open()` invocations dispatches any further event — in
particular no `closed` event ever fires after `close()`. -/
theorem close_silent (cfg : RecoveryOptions) (c : CtrlState)
    (acts : List Act) (hno : ∀ a ∈ acts, a.isOpenCall = false) :
    (step cfg c Act.closeCall).events = [] ∧
    (step cfg c Act.closeCall).err = none ∧
    (step cfg c Act.closeCall).ctrl.timer = false ∧
    (step cfg c Act.closeCall).ctrl.msgAttached = false ∧
    (∀ env, step cfg (step cfg c Act.closeCall).ctrl (Act.tickAt env) =
      ⟨(step cfg c Act.closeCall).ctrl, [], [], none⟩) ∧
    (runAcc cfg (step cfg c Act.closeCall).ctrl acts).2 = [] := by
  have h1 : (closeCtrl c).timer = false := by
    simp [closeCtrl, closeCurrent_timer, stop]
  refine ⟨rfl, rfl, ?_, ?_, ?_, ?_⟩
  · simpa [step] using h1
  · simp [step, closeCtrl, closeCurrent_msg, stop]
  · intro env
    simp [step, h1]
  · refine runAcc_quiet cfg acts _ ?_ ?_ hno
    · simpa [step] using h1
    · simp [step, closeCtrl, closeCurrent_msg, stop]

/-- C6, witnessed at `sampleCtrl`: `close()` emits nothing and the
subsequent tick, message and second `close()` emit nothing. -/
theorem close_silent_witness :
    (step {} sampleCtrl Act.closeCall).events = [] ∧
    (runAcc {} (step {} sampleCtrl Act.closeCall).ctrl
      [Act.tickAt ⟨21, viewClosed, .throws, 21⟩,
       Act.message "https:popup" exitNavMsg, Act.closeCall]).2 = [] :=
  ⟨(close_silent {} sampleCtrl
      [Act.tickAt ⟨21, viewClosed, .throws, 21⟩,
       Act.message "https:popup" exitNavMsg, Act.closeCall] (by decide)).1,
   (close_silent {} sampleCtrl
      [Act.tickAt ⟨21, viewClosed, .throws, 21⟩,
       Act.message "https:popup" exitNavMsg, Act.closeCall] (by decide)).2.2.2.2.2⟩

/-- A snapshot never touches `lastLossAt`. -/
lemma snapshot_lastLossAt (s : RecoveryState) (v : WindowView) :
    (snapshotUiState s v).1.lastLossAt = s.lastLossAt := by
  obtain ⟨cl, sx, sy, ow, oh, nm, hr⟩ := v
  cases sx <;> cases sy <;> cases ow <;> cases oh <;> cases nm <;> cases hr <;>
    simp [snapshotUiState]

/-- The accessibility signal is exactly success of the `href` read. -/
lemma snapshot_accessible (s : RecoveryState) (v : WindowView) :
    (snapshotUiState s v).2 = v.href.isSome := rfl

/-- First inaccessible tick under a positive grace period: `lastLossAt`
is stamped, nothing is emitted. -/
lemma tick_first_loss_grace (cfg : RecoveryOptions) (c : CtrlState)
    (env : TickEnv) (w : Nat)
    (hw : c.win = some w) (hnc : isClosed env.view = false)
    (hhref : env.view.href = none) (hLa : c.state.lastLossAt = 0)
    (hpos : 0 < cfg.lostAfterMs) :
    tick cfg c env =
      ⟨{ c with state :=
          { (snapshotUiState c.state env.view).1 with lastLossAt := env.now } },
        [], [], none⟩ := by
  have hs := snapshot_lastLossAt c.state env.view
  simp [tick, hw, hnc, hhref, hs, hLa, hpos, snapshot_accessible]

/-- Sustained inaccessible tick still inside the grace period: nothing
is emitted, `lastLossAt` keeps its stamp. -/
lemma tick_sustained_grace (cfg : RecoveryOptions) (c : CtrlState)
    (env : TickEnv) (w : Nat)
    (hw : c.win = some w) (hnc : isClosed env.view = false)
    (hhref : env.view.href = none) (hLa : c.state.lastLossAt ≠ 0)
    (hlf : (env.now : Int) - (c.state.lastLossAt : Int) < (cfg.lostAfterMs : Int))
    (hpos : 0 < cfg.lostAfterMs) :
    tick cfg c env =
      ⟨{ c with state := (snapshotUiState c.state env.view).1 }, [], [], none⟩ := by
  have hs := snapshot_lastLossAt c.state env.view
  simp [tick, hw, hnc, hhref, hs, hLa, hpos, hlf, snapshot_accessible]

/-- With `lostAfterMs = 0`, the first inaccessible tick fires
`lost` (with `lostForMs = 0`), then `open("recovery")`, then
`recovered`, given a successful replacement factory. -/
lemma tick_first_loss_fire (cfg : RecoveryOptions) (c : CtrlState)
    (env : TickEnv) (w w2 : Nat) (nm : Option String)
    (hw : c.win = some w) (hnc : isClosed env.view = false)
    (hhref : env.view.href = none) (hLa : c.state.lastLossAt = 0)
    (hla0 : cfg.lostAfterMs = 0) (hfac : env.factory = .ok w2 nm) :
    ∃ st1 st2, (tick cfg c env).events =
      [Event.lost 0 st1, Event.opened "recovery" w2 st2,
       Event.recovered st2] := by
  have hs := snapshot_lastLossAt c.state env.view
  cases nm <;>
    simp [tick, hw, hnc, hhref, hs, hLa, hla0, hfac, snapshot_accessible,
      closeCurrent, openNew]

/-- An inaccessible tick whose loss stamp is at least `lostAfterMs` old
fires `lost`, `open("recovery")`, `recovered`, given a successful
replacement factory. -/
lemma tick_loss_fire (cfg : RecoveryOptions) (c : CtrlState)
    (env : TickEnv) (w w2 : Nat) (nm : Option String)
    (hw : c.win = some w) (hnc : isClosed env.view = false)
    (hhref : env.view.href = none) (hLa : c.state.lastLossAt ≠ 0)
    (hge : (cfg.lostAfterMs : Int) ≤ (env.now : Int) - (c.state.lastLossAt : Int))
    (hfac : env.factory = .ok w2 nm) :
    ∃ st1 st2, (tick cfg c env).events =
      [Event.lost ((env.now : Int) - (c.state.lastLossAt : Int)) st1,
       Event.opened "recovery" w2 st2, Event.recovered st2] := by
  have hs := snapshot_lastLossAt c.state env.view
  have hnlt : ¬ ((env.now : Int) - (c.state.lastLossAt : Int)
      < (cfg.lostAfterMs : Int)) := by omega
  cases nm <;>
    simp [tick, hw, hnc, hhref, hs, hLa, hnlt, hfac, snapshot_accessible,
      closeCurrent, openNew]

/-- C5: (a) with `lostAfterMs = 0`, the first tick at which accessibility
is false emits `lost` with `lostForMs = 0` and then `recovered` in that
same tick (with the `open("recovery")` dispatch between them);
(b) with `lostAfterMs = 500` and `pollMs = 250`, ticks at `t`, `t+250`,
`t+500` on consecutive inaccessible views emit nothing on the first and
second tick, and `lost` (for 500 ms) then `recovered` on the third. -/
theorem debounce_scenarios :
    (∀ (cfg : RecoveryOptions) (c : CtrlState) (env : TickEnv)
        (w w2 : Nat) (nm : Option String),
      cfg.lostAfterMs = 0 → c.win = some w → c.state.lastLossAt = 0 →
      isClosed env.view = false → env.view.href = none →
      env.factory = .ok w2 nm →
      ∃ st1 st2, (tick cfg c env).events =
        [Event.lost 0 st1, Event.opened "recovery" w2 st2,
         Event.recovered st2]) ∧
    (∀ (cfg : RecoveryOptions) (c : CtrlState) (w w2 : Nat)
        (nm : Option String) (t : Nat) (v1 v2 v3 : WindowView)
        (f1 f2 : FactoryOutcome),
      cfg.pollMs = 250 → cfg.lostAfterMs = 500 → 0 < t →
      c.win = some w → c.state.lastLossAt = 0 →
      isClosed v1 = false → v1.href = none →
      isClosed v2 = false → v2.href = none →
      isClosed v3 = false → v3.href = none →
      (tick cfg c ⟨t, v1, f1, t⟩).events = [] ∧
      (tick cfg (tick cfg c ⟨t, v1, f1, t⟩).ctrl
        ⟨t + 250, v2, f2, t + 250⟩).events = [] ∧
      ∃ st1 st2,
        (tick cfg (tick cfg (tick cfg c ⟨t, v1, f1, t⟩).ctrl
            ⟨t + 250, v2, f2, t + 250⟩).ctrl
            ⟨t + 500, v3, .ok w2 nm, t + 500⟩).events =
          [Event.lost 500 st1, Event.opened "recovery" w2 st2,
           Event.recovered st2]) := by
  constructor
  · intro cfg c env w w2 nm hla hw hLa hnc hhref hfac
    exact tick_first_loss_fire cfg c env w w2 nm hw hnc hhref hLa hla hfac
  · intro cfg c w w2 nm t v1 v2 v3 f1 f2 hpoll hla ht hw hLa hv1c hv1h
      hv2c hv2h hv3c hv3h
    have hpos : 0 < cfg.lostAfterMs := by omega
    have h1 := tick_first_loss_grace cfg c ⟨t, v1, f1, t⟩ w hw hv1c hv1h hLa hpos
    have hw1 : ({ c with state :=
        { (snapshotUiState c.state v1).1 with lastLossAt := t } } : CtrlState).win
          = some w := hw
    have h2 := tick_sustained_grace cfg
      { c with state := { (snapshotUiState c.state v1).1 with lastLossAt := t } }
      ⟨t + 250, v2, f2, t + 250⟩ w hw1 hv2c hv2h
      (by simp; omega) (by rw [hla]; push_cast; omega) hpos
    have hc2La : ((snapshotUiState
        ({ c with state := { (snapshotUiState c.state v1).1 with
            lastLossAt := t } } : CtrlState).state v2).1).lastLossAt = t := by
      simpa using snapshot_lastLossAt
        ({ c with state := { (snapshotUiState c.state v1).1 with
            lastLossAt := t } } : CtrlState).state v2
    refine ⟨by simp [h1], by simp [h1, h2], ?_⟩
    have h3 := tick_loss_fire cfg
      { ({ c with state := { (snapshotUiState c.state v1).1 with
            lastLossAt := t } } : CtrlState) with
          state := (snapshotUiState
            ({ c with state := { (snapshotUiState c.state v1).1 with
                lastLossAt := t } } : CtrlState).state v2).1 }
      ⟨t + 500, v3, .ok w2 nm, t + 500⟩ w w2 nm hw1 hv3c hv3h
      (by simp only [hc2La]; omega)
      (by simp only [hc2La, hla]; push_cast; omega) rfl
    obtain ⟨st1, st2, h3⟩ := h3
    simp only [hc2La] at h3
    have harith : ((t + 500 : Nat) : Int) - (t : Int) = 500 := by
      push_cast; ring
    rw [harith] at h3
    refine ⟨st1, st2, ?_⟩
    simp only [h1, h2]
    exact h3

/-- C5, witnessed: scenario (a) at `sampleCtrl` with a concrete
inaccessible view and successful factory; scenario (b)'s first tick at
`t = 1000` emitting nothing. -/
theorem debounce_scenarios_witness :
    (∃ st1 st2, (tick {} sampleCtrl ⟨20, viewInaccessible, .ok 1 none, 20⟩).events =
      [Event.lost 0 st1, Event.opened "recovery" 1 st2,
       Event.recovered st2]) ∧
    (tick { pollMs := 250, lostAfterMs := 500 } sampleCtrl
      ⟨1000, viewInaccessible, .throws, 1000⟩).events = [] :=
  ⟨debounce_scenarios.1 {} sampleCtrl ⟨20, viewInaccessible, .ok 1 none, 20⟩
      0 1 none rfl rfl rfl rfl rfl rfl,
   (debounce_scenarios.2 { pollMs := 250, lostAfterMs := 500 } sampleCtrl
      0 1 none 1000 viewInaccessible viewInaccessible viewInaccessible
      .throws .throws rfl rfl (by omega) rfl rfl rfl rfl rfl rfl rfl rfl).1⟩

/-- In the event chunk of a single callback, a `recovered` event occurs
only as the third element of the exact
`lost` / `open("recovery")` / `recovered` triple. -/
def StrongChunk (evs : List Event) : Prop :=
  ∀ i st, evs[i]? = some (Event.recovered st) →
    i = 2 ∧ ∃ lf st1 w st2,
      evs = [Event.lost lf st1, Event.opened "recovery" w st2,
             Event.recovered st]

/-- Every `recovered` event is preceded by a `lost` event two positions
earlier and an `open("recovery")` event immediately before it. -/
def LostBeforeRecovered (evs : List Event) : Prop :=
  ∀ i st, evs[i]? = some (Event.recovered st) →
    2 ≤ i ∧ (∃ lf st1, evs[i - 2]? = some (Event.lost lf st1)) ∧
      ∃ w st2, evs[i - 1]? = some (Event.opened "recovery" w st2)

lemma strongChunk_nil : StrongChunk [] := by
  intro i st hi
  simp at hi

lemma strongChunk_singleton (e : Event)
    (h : ∀ st, e ≠ Event.recovered st) : StrongChunk [e] := by
  intro i st hi
  match i with
  | 0 => simp at hi; exact absurd hi (h st)
  | n + 1 => simp at hi

lemma strongChunk_triple (lf : Int) (st1 : RecoveryState) (w : Nat)
    (st2 st3 : RecoveryState) :
    StrongChunk [Event.lost lf st1, Event.opened "recovery" w st2,
      Event.recovered st3] := by
  intro i st hi
  match i with
  | 0 => simp at hi
  | 1 => simp at hi
  | 2 =>
      simp at hi
      exact ⟨rfl, lf, st1, w, st2, by rw [hi]⟩
  | n + 3 => simp at hi

/-- Concatenating a well-shaped chunk in front preserves the
lost-before-recovered property. -/
lemma lostBeforeRecovered_append (c rest : List Event)
    (hc : StrongChunk c) (hr : LostBeforeRecovered rest) :
    LostBeforeRecovered (c ++ rest) := by
  intro i st h
  by_cases hi : i < c.length
  · rw [List.getElem?_append_left hi] at h
    obtain ⟨hi2, lf, st1, w, st2, hceq⟩ := hc i st h
    subst hi2
    subst hceq
    exact ⟨le_refl 2,
      ⟨lf, st1, by rw [List.getElem?_append_left (by norm_num)]; rfl⟩,
      ⟨w, st2, by rw [List.getElem?_append_left (by norm_num)]; rfl⟩⟩
  · push_neg at hi
    rw [List.getElem?_append_right hi] at h
    obtain ⟨h2, ⟨lf, st1, hl⟩, ⟨w, st2, ho⟩⟩ := hr (i - c.length) st h
    have hge : 2 + c.length ≤ i := by omega
    refine ⟨by omega, ⟨lf, st1, ?_⟩, ⟨w, st2, ?_⟩⟩
    · rw [List.getElem?_append_right (by omega : c.length ≤ i - 2)]
      have he : i - 2 - c.length = i - c.length - 2 := by omega
      rw [he]
      exact hl
    · rw [List.getElem?_append_right (by omega : c.length ≤ i - 1)]
      have he : i - 1 - c.length = i - c.length - 1 := by omega
      rw [he]
      exact ho

/-- The possible event chunks of a single tick. -/
lemma tick_events_cases (cfg : RecoveryOptions) (c : CtrlState)
    (env : TickEnv) :
    (tick cfg c env).events = [] ∨
    (∃ b e st, (tick cfg c env).events = [Event.closed b e st]) ∨
    (∃ lf st, (tick cfg c env).events = [Event.lost lf st]) ∨
    (∃ lf st w st2 st3, (tick cfg c env).events =
      [Event.lost lf st, Event.opened "recovery" w st2,
       Event.recovered st3]) := by
  rcases hw : c.win with _ | w
  · left; simp [tick, hw]
  · by_cases hc : isClosed env.view
    · right; left
      exact ⟨c.closedByManager, c.state.exitSignaled, c.state,
        by simp [tick, hw, hc, stop]⟩
    · by_cases hacc : (snapshotUiState c.state env.view).2
      · left; simp [tick, hw, hc, hacc]
      · rcases hf : env.factory with _ | _ | ⟨w2, nm⟩ <;>
          simp [tick, hw, hc, hacc, hf, openNew, closeCurrent] <;>
          split <;>
          try split
        all_goals
          first
            | (left; rfl)
            | (right; right; left; exact ⟨_, _, rfl⟩)
            | (right; right; right; exact ⟨_, _, _, _, _, rfl⟩)

/-- The possible event chunks of a caller `open()` invocation. -/
lemma openCtrl_events_cases (c : CtrlState) (reason : String)
    (f : FactoryOutcome) (now : Nat) :
    (openCtrl c reason f now).events = [] ∨
    ∃ w st, (openCtrl c reason f now).events = [Event.opened reason w st] := by
  rcases f with _ | _ | ⟨w, nm⟩
  · left; rfl
  · left; rfl
  · right; exact ⟨_, _, rfl⟩

/-- The possible event chunks of one incoming message. -/
lemma handleMessage_events_cases (c : CtrlState) (o : String) (d : MsgData) :
    (handleMessage c o d).2 = [] ∨
    ∃ r st, (handleMessage c o d).2 = [Event.exit r st] := by
  rcases d with _ | m
  · left; rfl
  · by_cases h1 : m.type = some "POPUP_EXIT"
    · by_cases h2 : m.type = some "POPUP_UI_STATE"
      · rw [h1] at h2; simp at h2
      · right
        refine ⟨m.reason.getD "unknown",
          { c.state with exitSignaled := true }, ?_⟩
        rcases hb : m.bounds with _ | bp <;>
          simp [handleMessage, h1, h2, hb]
    · by_cases h2 : m.type = some "POPUP_UI_STATE"
      · rcases hb : m.bounds with _ | bp <;>
          (left; simp [handleMessage, h1, h2, hb])
      · left; simp [handleMessage, h1, h2]

/-- Every single-callback event chunk is well shaped: a `recovered`
occurs only as the tail of the full recovery triple. -/
lemma step_strong (cfg : RecoveryOptions) (c : CtrlState) (a : Act) :
    StrongChunk (step cfg c a).events := by
  cases a with
  | tickAt env =>
      by_cases ht : c.timer
      · have hs : (step cfg c (Act.tickAt env)).events = (tick cfg c env).events := by
          simp [step, ht]
        rw [hs]
        rcases tick_events_cases cfg c env with h | ⟨b, e, st, h⟩ |
          ⟨lf, st, h⟩ | ⟨lf, st, w, st2, st3, h⟩ <;> rw [h]
        · exact strongChunk_nil
        · exact strongChunk_singleton _ (by intro st'; simp)
        · exact strongChunk_singleton _ (by intro st'; simp)
        · exact strongChunk_triple lf st w st2 st3
      · have hs : (step cfg c (Act.tickAt env)).events = [] := by
          simp [step, ht]
        rw [hs]
        exact strongChunk_nil
  | message o d =>
      by_cases hm : c.msgAttached
      · have hs : (step cfg c (Act.message o d)).events =
            (handleMessage c o d).2 := by
          simp [step, hm]
        rw [hs]
        rcases handleMessage_events_cases c o d with h | ⟨r, st, h⟩ <;> rw [h]
        · exact strongChunk_nil
        · exact strongChunk_singleton _ (by intro st'; simp)
      · have hs : (step cfg c (Act.message o d)).events = [] := by
          simp [step, hm]
        rw [hs]
        exact strongChunk_nil
  | openCall r f n =>
      rcases openCtrl_events_cases c r f n with h | ⟨w, st, h⟩ <;>
        simp only [step] <;> rw [h]
      · exact strongChunk_nil
      · exact strongChunk_singleton _ (by intro st'; simp)
  | closeCall => exact strongChunk_nil

/-- C3 amended: in the event sequence of any run (any interleaving of
ticks, messages, `open()` and `close()` calls), every `recovered` event
is preceded, within the same tick, by a `lost` event two positions
earlier — but not immediately: the `open` event with reason
`"recovery"` that `openNew` dispatches sits directly between them. -/
theorem recovered_preceded_by_lost (cfg : RecoveryOptions) (c : CtrlState)
    (acts : List Act) :
    LostBeforeRecovered (runAcc cfg c acts).2 := by
  induction acts generalizing c with
  | nil =>
      intro i st h
      simp [runAcc] at h
  | cons a rest ih =>
      have hsplit : (runAcc cfg c (a :: rest)).2 =
          (step cfg c a).events ++ (runAcc cfg (step cfg c a).ctrl rest).2 :=
        rfl
      rw [hsplit]
      exact lostBeforeRecovered_append _ _ (step_strong cfg c a)
        (ih (step cfg c a).ctrl)

/-- C3 amended, witnessed on a concrete run containing a recovery. -/
theorem recovered_preceded_by_lost_witness :
    LostBeforeRecovered (runAcc {} sampleCtrl
      [Act.tickAt ⟨20, viewInaccessible, .ok 1 none, 20⟩]).2 :=
  recovered_preceded_by_lost {} sampleCtrl
    [Act.tickAt ⟨20, viewInaccessible, .ok 1 none, 20⟩]

/-- C3 counterexample: in the concrete run whose single tick recovers the
handle, a `recovered` event occurs at position 2 but the event
immediately before it is not a `lost` event (it is the
`open("recovery")` dispatch), refuting "no other event is emitted
between them". -/
theorem recovered_cex :
    (∃ st, ((runAcc {} sampleCtrl
        [Act.tickAt ⟨20, viewInaccessible, .ok 1 none, 20⟩]).2)[2]? =
      some (Event.recovered st)) ∧
    ∀ lf st, ((runAcc {} sampleCtrl
        [Act.tickAt ⟨20, viewInaccessible, .ok 1 none, 20⟩]).2)[1]? ≠
      some (Event.lost lf st) := by
  constructor
  · exact ⟨_, rfl⟩
  · intro lf st h
    obtain ⟨w, st2, he⟩ : ∃ w st2, ((runAcc {} sampleCtrl
        [Act.tickAt ⟨20, viewInaccessible, .ok 1 none, 20⟩]).2)[1]? =
        some (Event.opened "recovery" w st2) := ⟨_, _, rfl⟩
    rw [he] at h
    simp at h
